import Mathlib

/-!
Verification of the `c_sanity_check.c` ABI sanity checker.

The program declares the FFI structs, constants and callback signatures of
the mihomo core library, statically asserts the struct sizes, and prints a
five-line machine-parseable report.  We shallowly embed:

* the C struct layout computation (LP64, standard alignment rules), so the
  `sizeof` values in the static assertions are *computed* from the field
  lists, not postulated;
* the constant macros (`MIHOMO_OK`, ... , `MIHOMO_STATE_RUNNING`);
* the report emitted by `main` as a pure function of the measured sizes and
  the callback addresses, together with the process exit code;
* the compile gate: `STATIC_CHECK` is a compile-time assertion, so a build
  (and hence a run) exists only when every size check passes;
* the four dummy callbacks `cb_tx`, `cb_mem`, `cb_log`, `cb_state` as
  functions from their argument to the list of lines they print.
-/

namespace MihomoSanity

/-! ## C struct layout (LP64) -/

/-- One C struct field: its size and alignment requirement in bytes. -/
structure CField where
  name : String
  size : Nat
  align : Nat
deriving Repr, DecidableEq

/-- Round `n` up to the next multiple of `a` (C padding insertion). -/
def alignUp (n a : Nat) : Nat := ((n + a - 1) / a) * a

/-- Fold the standard C layout algorithm over the fields: the running
offset (each field placed at the next offset aligned to its alignment)
and the struct alignment (max of field alignments). -/
def structLayout (fs : List CField) : Nat × Nat :=
  fs.foldl (fun acc f => (alignUp acc.1 f.align + f.size, max acc.2 f.align)) (0, 1)

/-- `sizeof` a C struct: the end offset rounded up to the struct alignment. -/
def sizeofStruct (fs : List CField) : Nat :=
  alignUp (structLayout fs).1 (structLayout fs).2

/-- `typedef struct { char version[64]; } MihomoVersion;` -/
def mihomoVersionFields : List CField :=
  [⟨"version", 64, 1⟩]

/-- `typedef struct { uint64_t timestamp_ms, up, down; } MihomoTrafficSample;` -/
def mihomoTrafficSampleFields : List CField :=
  [⟨"timestamp_ms", 8, 8⟩, ⟨"up", 8, 8⟩, ⟨"down", 8, 8⟩]

/-- `typedef struct { uint64_t timestamp_ms, inuse; } MihomoMemorySample;` -/
def mihomoMemorySampleFields : List CField :=
  [⟨"timestamp_ms", 8, 8⟩, ⟨"inuse", 8, 8⟩]

/-- `typedef struct { uint64_t timestamp_ms; char level[16]; char payload[512]; } MihomoLogEntry;` -/
def mihomoLogEntryFields : List CField :=
  [⟨"timestamp_ms", 8, 8⟩, ⟨"level", 16, 1⟩, ⟨"payload", 512, 1⟩]

/-- `typedef struct { char id[64]; char metadata_host[256]; uint16_t metadata_dst_port;
char rule[256]; uint64_t start_time_ms; } MihomoConnection;` -/
def mihomoConnectionFields : List CField :=
  [⟨"id", 64, 1⟩, ⟨"metadata_host", 256, 1⟩, ⟨"metadata_dst_port", 2, 2⟩,
   ⟨"rule", 256, 1⟩, ⟨"start_time_ms", 8, 8⟩]

/-- `typedef struct { const char* home_dir; const char* config_file;
const char* external_controller; const char* secret; int log_level; } MihomoInitOptions;`
(four 8-byte pointers and one 4-byte `int` on LP64). -/
def mihomoInitOptionsFields : List CField :=
  [⟨"home_dir", 8, 8⟩, ⟨"config_file", 8, 8⟩, ⟨"external_controller", 8, 8⟩,
   ⟨"secret", 8, 8⟩, ⟨"log_level", 4, 4⟩]

/-! ## Constant registry (lines 9-17 of the source) -/

def MIHOMO_OK : Int := 0
def MIHOMO_ERR_INIT : Int := 1
def MIHOMO_ERR_INVALID_ARG : Int := 2
def MIHOMO_ERR_RUNTIME : Int := 3
def MIHOMO_ERR_NOT_INITIALIZED : Int := 4

def MIHOMO_STATE_STOPPED : Int := 0
def MIHOMO_STATE_RUNNING : Int := 2

/-- The Constant Registry: every named cross-boundary constant the
checker's source defines, with its value. -/
def constantRegistry : List (String × Int) :=
  [("ok", MIHOMO_OK),
   ("init error", MIHOMO_ERR_INIT),
   ("invalid argument", MIHOMO_ERR_INVALID_ARG),
   ("runtime error", MIHOMO_ERR_RUNTIME),
   ("not initialized", MIHOMO_ERR_NOT_INITIALIZED),
   ("stopped", MIHOMO_STATE_STOPPED),
   ("running", MIHOMO_STATE_RUNNING)]

/-- The lifecycle-state constants (the closed `MihomoCoreState` set). -/
def coreStates : List Int := [MIHOMO_STATE_STOPPED, MIHOMO_STATE_RUNNING]

/-! ## Measured sizes and the compile gate -/

/-- The measured `sizeof` of each struct the program mentions, as a build
configuration.  `STATIC_CHECK` and the `SIZE:` line read these. -/
structure MeasuredSizes where
  ver : Nat
  tx : Nat
  mem : Nat
  log : Nat
  conn : Nat
  opt : Nat
deriving Repr, DecidableEq

/-- The sizes an LP64 target actually measures, computed from the
field lists by the C layout algorithm. -/
def lp64Sizes : MeasuredSizes :=
  { ver := sizeofStruct mihomoVersionFields
    tx := sizeofStruct mihomoTrafficSampleFields
    mem := sizeofStruct mihomoMemorySampleFields
    log := sizeofStruct mihomoLogEntryFields
    conn := sizeofStruct mihomoConnectionFields
    opt := sizeofStruct mihomoInitOptionsFields }

/-- Lines 55-59: the five `STATIC_CHECK(sizeof(...)==N)` assertions.
(`MihomoInitOptions` is printed but not checked.) -/
def staticChecksPass (m : MeasuredSizes) : Bool :=
  m.ver == 64 && m.tx == 24 && m.mem == 16 && m.log == 536 && m.conn == 592

/-- The five static checks individually, in source order, each named and
paired with whether it passes. -/
def checkResults (m : MeasuredSizes) : List (String × Bool) :=
  [("ver", m.ver == 64), ("tx", m.tx == 24), ("mem", m.mem == 16),
   ("log", m.log == 536), ("conn", m.conn == 592)]

/-! ## The report emitted by `main` -/

/-- Concatenate `name=value` fields separated by single spaces, as the
`printf` format strings on lines 63-66 lay them out. -/
def kvCat : List (String × String) → String
  | [] => ""
  | [f] => f.1 ++ "=" ++ f.2
  | f :: fs => f.1 ++ "=" ++ f.2 ++ " " ++ kvCat fs

/-- Render a report line: `TAG:name1=v1 name2=v2 ...` (the shape of the
`printf` format strings on lines 63-66). -/
def kvLine (tag : String) (fields : List (String × String)) : String :=
  tag ++ ":" ++ kvCat fields

/-- The fields of the `SIZE:` line, in the order of the format string on
line 63: `ver tx mem log conn opt`. -/
def sizeFieldsOf (m : MeasuredSizes) : List (String × String) :=
  [("ver", toString m.ver), ("tx", toString m.tx), ("mem", toString m.mem),
   ("log", toString m.log), ("conn", toString m.conn), ("opt", toString m.opt)]

def sizeLine (m : MeasuredSizes) : String := kvLine "SIZE" (sizeFieldsOf m)

/-- The fields of the `ENUM:` line as the format string on line 65 fixes
them: names `ok init halt run`, in that order, holding the four values
interpolated by the `printf`. -/
def enumFields (a b c d : Int) : List (String × Int) :=
  [("ok", a), ("init", b), ("halt", c), ("run", d)]

def enumLine (a b c d : Int) : String :=
  kvLine "ENUM" ((enumFields a b c d).map (fun f => (f.1, toString f.2)))

/-- The `ENUM:` line `main` actually prints:
`ENUM:ok=%d init=%d halt=%d run=%d` applied to `MIHOMO_OK`,
`MIHOMO_ERR_INIT`, `MIHOMO_STATE_STOPPED`, `MIHOMO_STATE_RUNNING`. -/
def enumLineActual : String :=
  enumLine MIHOMO_OK MIHOMO_ERR_INIT MIHOMO_STATE_STOPPED MIHOMO_STATE_RUNNING

/-- The addresses the linker assigned to the four dummy callbacks:
the values `(void*)cb_tx` etc. that line 66 prints with `%p`.  In one
environment these are fixed; their particular values are irrelevant to
every claim. -/
structure CbAddrs where
  tx : Nat
  mem : Nat
  log : Nat
  state : Nat
deriving Repr, DecidableEq

/-- `%p` rendering of a pointer value (hexadecimal with `0x` prefix). -/
def ptrHex (n : Nat) : String :=
  "0x" ++ String.mk (Nat.toDigits 16 n)

def cbptrLine (e : CbAddrs) : String :=
  kvLine "CBPTR" [("tx", ptrHex e.tx), ("mem", ptrHex e.mem),
                  ("log", ptrHex e.log), ("state", ptrHex e.state)]

/-- The five lines `main` prints (lines 62-67), in order. -/
def mainOutput (m : MeasuredSizes) (e : CbAddrs) : List String :=
  ["MIHOMO:ABI", sizeLine m, enumLineActual, cbptrLine e, "DECL:link"]

/-- `main` returns 0 unconditionally (line 68). -/
def mainExitCode : Nat := 0

/-- The build-and-run pipeline.  `STATIC_CHECK` expands to a typedef of a
negative-size array when its condition fails, so compilation fails and no
program (hence no run, report or exit status) exists unless every size
check passes; when it succeeds the run produces `main`'s output and exit
code 0. -/
def build (m : MeasuredSizes) (e : CbAddrs) : Option (List String × Nat) :=
  if staticChecksPass m then some (mainOutput m e, mainExitCode) else none

/-! ## The dummy callbacks (lines 50-53) -/

/-- The value content of a `MihomoTrafficSample` (three `uint64_t`). -/
structure MihomoTrafficSample where
  timestamp_ms : Nat
  up : Nat
  down : Nat
deriving Repr, DecidableEq

/-- The value content of a `MihomoMemorySample` (two `uint64_t`). -/
structure MihomoMemorySample where
  timestamp_ms : Nat
  inuse : Nat
deriving Repr, DecidableEq

/-- The value content of a `MihomoLogEntry`: the `uint64_t` timestamp and
the C-string contents of the `level` and `payload` buffers. -/
structure MihomoLogEntry where
  timestamp_ms : Nat
  level : String
  payload : String
deriving Repr, DecidableEq

/-- `cb_tx`: given a possibly-null sample pointer, the lines it prints.
`if(s) OUT("NET:TX=%llu RX=%llu\n", s->up, s->down);` -/
def cb_tx (s : Option MihomoTrafficSample) : List String :=
  match s with
  | none => []
  | some s => ["NET:TX=" ++ toString s.up ++ " RX=" ++ toString s.down]

/-- `cb_mem`: `if(s) OUT("MEM:USE=%llu\n", s->inuse);` -/
def cb_mem (s : Option MihomoMemorySample) : List String :=
  match s with
  | none => []
  | some s => ["MEM:USE=" ++ toString s.inuse]

/-- `cb_log`: `if(s) OUT("LOG:%s:%s\n", s->level, s->payload);` -/
def cb_log (s : Option MihomoLogEntry) : List String :=
  match s with
  | none => []
  | some s => ["LOG:" ++ s.level ++ ":" ++ s.payload]

/-- `cb_state`: `OUT("STATE:%d\n", s);` — no null check is possible, `s`
is an `int` passed by value, and the print is unconditional. -/
def cb_state (s : Int) : List String :=
  ["STATE:" ++ toString s]

/-- The build configuration of Scenario 2: LogEntry's padding drifted so it
measures 544 bytes, every other struct unchanged. -/
def driftedSizes : MeasuredSizes :=
  { lp64Sizes with log := 544 }

/-! ## String helpers -/

/-- `p` is a prefix of `s`, at the character level. -/
def strIsPrefix (p s : String) : Prop :=
  p.data <+: s.data

/-- `p` occurs inside `s`, at the character level. -/
def strHasInside (p s : String) : Prop :=
  p.data <:+: s.data

theorem str_data_append (p q : String) : (p ++ q).data = p.data ++ q.data :=
  rfl

theorem strIsPrefix_append (p q : String) : strIsPrefix p (p ++ q) := by
  unfold strIsPrefix
  rw [str_data_append]
  exact List.prefix_append p.data q.data

theorem kvLine_tag_prefix (tag : String) (fs : List (String × String)) :
    strIsPrefix (tag ++ ":") (kvLine tag fs) :=
  strIsPrefix_append (tag ++ ":") (kvCat fs)

/-! ## Claims -/

/-- C1: on the LP64 target the C layout algorithm measures every entity of
the Layout Descriptor Set at exactly its declared size (VersionInfo 64,
TrafficSample 24, MemorySample 16, LogEntry 536, Connection 592), so all
five static checks pass, the build exists, the `SIZE:` line reports the
declared values, and the process exits with status 0. -/
theorem C1_declared_sizes_hold :
    (sizeofStruct mihomoVersionFields = 64
      ∧ sizeofStruct mihomoTrafficSampleFields = 24
      ∧ sizeofStruct mihomoMemorySampleFields = 16
      ∧ sizeofStruct mihomoLogEntryFields = 536
      ∧ sizeofStruct mihomoConnectionFields = 592)
    ∧ staticChecksPass lp64Sizes = true
    ∧ checkResults lp64Sizes =
        [("ver", true), ("tx", true), ("mem", true), ("log", true), ("conn", true)]
    ∧ (∀ e : CbAddrs, build lp64Sizes e = some (mainOutput lp64Sizes e, 0))
    ∧ sizeLine lp64Sizes = "SIZE:ver=64 tx=24 mem=16 log=536 conn=592 opt=40" := by
  refine ⟨⟨by decide, by decide, by decide, by decide, by decide⟩, by decide, by decide,
    fun e => rfl, by decide⟩

/-- C2: a run of the driver exists exactly when every static check passed
(a failed check aborts compilation, so no process with a failing
verification ever runs), and every run that exists exits with status 0;
hence exit status 0 occurs exactly on a fully passing build, and a build
with any failing verification never produces a passing (zero) exit
status. -/
theorem C2_exit_status_verdict :
    (∀ (m : MeasuredSizes) (e : CbAddrs) (out : List String) (code : Nat),
      build m e = some (out, code) → code = 0 ∧ staticChecksPass m = true)
    ∧ (∀ (m : MeasuredSizes) (e : CbAddrs),
      staticChecksPass m = false → build m e = none) := by
  constructor
  · intro m e out code h
    unfold build at h
    by_cases hp : staticChecksPass m
    · rw [if_pos hp] at h
      exact ⟨(Prod.mk.injEq _ _ _ _ ▸ Option.some.injEq _ _ ▸ h).2.symm ▸ rfl, hp⟩
    · rw [if_neg hp] at h
      exact absurd h (Option.noConfusion)
  · intro m e hfail
    unfold build
    rw [if_neg (by rw [hfail]; exact Bool.false_ne_true)]

theorem C2_exit_status_verdict_witness :
    ((0 : Nat) = 0 ∧ staticChecksPass lp64Sizes = true)
    ∧ build driftedSizes ⟨1, 2, 3, 4⟩ = none :=
  ⟨C2_exit_status_verdict.1 lp64Sizes ⟨1, 2, 3, 4⟩ (mainOutput lp64Sizes ⟨1, 2, 3, 4⟩) 0 rfl,
   C2_exit_status_verdict.2 driftedSizes ⟨1, 2, 3, 4⟩ (by decide)⟩

/-- C3 (counterexample): the enum line does NOT list every constant of the
Constant Registry.  It is exactly `ENUM:ok=0 init=1 halt=0 run=2`: four
fields, while the registry holds seven constants, and the values of
"runtime error" (3) and "not initialized" (4) appear nowhere in the line
(no character `3` or `4` occurs in it at all). -/
theorem C3_enum_line_counterexample :
    enumLineActual = "ENUM:ok=0 init=1 halt=0 run=2"
    ∧ (enumFields MIHOMO_OK MIHOMO_ERR_INIT MIHOMO_STATE_STOPPED MIHOMO_STATE_RUNNING).length
        = 4
    ∧ constantRegistry.length = 7
    ∧ ¬ ('3' ∈ enumLineActual.data)
    ∧ ¬ ('4' ∈ enumLineActual.data) := by
  refine ⟨by decide, rfl, rfl, by decide, by decide⟩

/-- C3 (amended): the report's enum line lists, in the fixed named order
`ok init halt run`, the actual values of exactly four registry constants —
"ok" (0), "init error" (1), "stopped" (0, printed as `halt`), "running"
(2, printed as `run`); the remaining result codes "invalid argument",
"runtime error" and "not initialized" are defined but not reported on the
line. -/
theorem C3_enum_line_amended :
    (enumFields MIHOMO_OK MIHOMO_ERR_INIT MIHOMO_STATE_STOPPED MIHOMO_STATE_RUNNING).map
        Prod.fst = ["ok", "init", "halt", "run"]
    ∧ (enumFields MIHOMO_OK MIHOMO_ERR_INIT MIHOMO_STATE_STOPPED MIHOMO_STATE_RUNNING).map
        Prod.snd = [0, 1, 0, 2]
    ∧ enumLineActual = "ENUM:ok=0 init=1 halt=0 run=2"
    ∧ ¬ ('3' ∈ enumLineActual.data)
    ∧ ('2' ∈ enumLineActual.data) := by
  refine ⟨rfl, by decide, by decide, by decide, by decide⟩

/-- C4 (counterexample): with LogEntry drifted to 544 bytes the static
check for `log` fails, so the `STATIC_CHECK` typedef has a negative array
size and compilation fails: no run exists at all — contrary to the claim,
the run does not "still execute", produces no report and no exit status. -/
theorem C4_drift_counterexample :
    staticChecksPass driftedSizes = false
    ∧ build driftedSizes ⟨0, 0, 0, 0⟩ = none := by
  exact ⟨by decide, by decide⟩

/-- C4 (amended): if LogEntry's measured size drifts to 544 while the
other four entities keep their declared sizes, exactly the `log` static
check fails (the other four individually still pass), and — because the
checks are compile-time assertions — the program fails to build: no run,
no report and no exit status (in particular no zero exit) exist. -/
theorem C4_drift_amended (e : CbAddrs) :
    checkResults driftedSizes =
      [("ver", true), ("tx", true), ("mem", true), ("log", false), ("conn", true)]
    ∧ build driftedSizes e = none := by
  exact ⟨by decide, rfl⟩

/-- C5: for every build configuration and callback-address environment the
driver's output is exactly five lines in fixed order — the ABI marker
`MIHOMO:ABI`, a line tagged `SIZE:` whose fields name every measured
entity in the fixed order ver/tx/mem/log/conn/opt, a line tagged `ENUM:`,
a line tagged `CBPTR:` reporting the callback addresses, and the final
marker `DECL:link` — and nothing else. -/
theorem C5_report_is_five_fixed_lines (m : MeasuredSizes) (e : CbAddrs) :
    (mainOutput m e).length = 5
    ∧ mainOutput m e = ["MIHOMO:ABI", sizeLine m, enumLineActual, cbptrLine e, "DECL:link"]
    ∧ strIsPrefix "SIZE:" (sizeLine m)
    ∧ strIsPrefix "ENUM:" enumLineActual
    ∧ strIsPrefix "CBPTR:" (cbptrLine e)
    ∧ (sizeFieldsOf m).map Prod.fst = ["ver", "tx", "mem", "log", "conn", "opt"] := by
  refine ⟨rfl, rfl, kvLine_tag_prefix "SIZE" _, kvLine_tag_prefix "ENUM" _,
    kvLine_tag_prefix "CBPTR" _, rfl⟩

/-- C6: whatever the underlying integer values, the enum line's fields are
named `ok`, `init`, `halt` (stopped), `run` (running) in exactly that
order, carrying those values in the same order, so a parser can index the
constants by position. -/
theorem C6_enum_order_fixed (a b c d : Int) :
    (enumFields a b c d).map Prod.fst = ["ok", "init", "halt", "run"]
    ∧ (enumFields a b c d).map Prod.snd = [a, b, c, d]
    ∧ (enumLine a b c d).data =
        "ENUM:ok=".data ++ (toString a).data ++ " init=".data ++ (toString b).data
          ++ " halt=".data ++ (toString c).data ++ " run=".data ++ (toString d).data := by
  refine ⟨rfl, rfl, ?_⟩
  show (kvLine "ENUM" _).data = _
  simp only [kvLine, kvCat, str_data_append, List.append_assoc]
  rfl

/-- C7: invoking the dummy traffic callback with a non-null sample whose
upload counter is 1000 and download counter is 2000 renders exactly one
line, `NET:TX=1000 RX=2000`, which contains both decimal values verbatim,
whatever the sample's timestamp. -/
theorem C7_traffic_callback_renders_values (ts : Nat) :
    cb_tx (some ⟨ts, 1000, 2000⟩) = ["NET:TX=1000 RX=2000"]
    ∧ (cb_tx (some ⟨ts, 1000, 2000⟩)).length = 1
    ∧ strHasInside "1000" "NET:TX=1000 RX=2000"
    ∧ strHasInside "2000" "NET:TX=1000 RX=2000" := by
  refine ⟨?_, rfl, ⟨"NET:TX=".data, " RX=2000".data, by decide⟩,
    ⟨"NET:TX=1000 RX=".data, [], by decide⟩⟩
  show ["NET:TX=" ++ toString (1000 : Nat) ++ " RX=" ++ toString (2000 : Nat)] = _
  decide

/-- C8: the checker is deterministic — its output and exit status are a
pure function of the compiled-in sizes and link-time callback addresses
and of nothing else (the model takes no other input), so two runs in the
same environment produce identical results, callback-pointer line
included. -/
theorem C8_deterministic (m : MeasuredSizes) (e : CbAddrs)
    (r1 r2 : Option (List String × Nat))
    (h1 : build m e = r1) (h2 : build m e = r2) : r1 = r2 :=
  h1.symm.trans h2

theorem C8_deterministic_witness :
    (some (mainOutput lp64Sizes ⟨1, 1, 1, 1⟩, 0) : Option (List String × Nat))
      = some (mainOutput lp64Sizes ⟨1, 1, 1, 1⟩, 0) :=
  C8_deterministic lp64Sizes ⟨1, 1, 1, 1⟩ _ _ rfl rfl

/-- C9: each pointer-taking dummy callback (traffic, memory, log) prints
nothing when handed a null sample pointer, while the state-change callback
prints exactly one `STATE:` line for every integer it receives — including
values such as 1 and -7 that lie outside the closed CoreState set
\x7bstopped=0, running=2\x7d. -/
theorem C9_null_checks_and_state_unconditional :
    cb_tx none = []
    ∧ cb_mem none = []
    ∧ cb_log none = []
    ∧ (∀ s : Int, cb_state s = ["STATE:" ++ toString s])
    ∧ cb_state 1 = ["STATE:1"]
    ∧ cb_state (-7) = ["STATE:-7"]
    ∧ ¬ ((1 : Int) ∈ coreStates)
    ∧ ¬ ((-7 : Int) ∈ coreStates) := by
  refine ⟨rfl, rfl, rfl, fun s => rfl, by decide, by decide, by decide, by decide⟩

/-- C10: the constant values are result codes ok=0, init error=1, invalid
argument=2, runtime error=3, not initialized=4 (consecutive from zero) and
lifecycle states stopped=0, running=2; the state value 1 is unassigned and
the stopped state is numerically equal to the ok result code. -/
theorem C10_constant_values :
    MIHOMO_OK = 0
    ∧ MIHOMO_ERR_INIT = 1
    ∧ MIHOMO_ERR_INVALID_ARG = 2
    ∧ MIHOMO_ERR_RUNTIME = 3
    ∧ MIHOMO_ERR_NOT_INITIALIZED = 4
    ∧ MIHOMO_STATE_STOPPED = 0
    ∧ MIHOMO_STATE_RUNNING = 2
    ∧ constantRegistry.map Prod.snd = [0, 1, 2, 3, 4, 0, 2]
    ∧ ¬ ((1 : Int) ∈ coreStates)
    ∧ MIHOMO_STATE_STOPPED = MIHOMO_OK := by
  refine ⟨rfl, rfl, rfl, rfl, rfl, rfl, rfl, rfl, by decide, rfl⟩

end MihomoSanity
